import Mathlib

/-!
Verification development for the iperf3 Prometheus exporter (`main.go`).

The program periodically runs `iperf3 --json -c <server> -p <port>` in a
background loop, decodes the JSON report, and publishes four gauges
(sent/received bits-per-second and retransmit counts) plus a per-server
error counter through a Prometheus `/metrics` endpoint.

The embedding below models:
  * the JSON values the tool can print and the `encoding/json` decoding of
    them into the Go structs `IPerf3Summary` / `IPerf3Result` (absent or
    `null` fields decode to the Go zero value, unknown fields are ignored,
    type mismatches are decoding errors);
  * `ExecIPerf3`, as a function of the observable outcome of one subprocess
    run (the error returned by `cmd.Run`, the exit code, and the captured
    stdout);
  * the metric store for the single configured server label: each
    Prometheus `GaugeVec` is an optional rational (absent until first set,
    `Reset` returns it to absent, `WithLabelValues(..).Add(1)` creates the
    label at 0 and adds one);
  * the sampler loop body (`main.go` lines 95-114) as a step function on
    the store that also yields the sleep duration (in nanoseconds) chosen
    before the next attempt, and its iteration over a trace of outcomes;
  * the registration and exposition step: `prometheus.MustRegister` at
    line 115 registers only the four throughput/retransmit gauges, and the
    `/metrics` handler serializes the registered vectors that currently
    have a value;
  * the bootstrap exit behavior (`time.ParseDuration` of the interval flag
    and `http.ListenAndServe`), each modeled by the outcome of the external
    call.

Floating-point fields carry no arithmetic in this program (values are only
decoded, stored and re-read), so numeric JSON fields are modeled as `Rat`.
-/

/-- JSON values, as decoded from the captured stdout of the tool.  Numbers
are modeled as rationals: the program performs no arithmetic on them. -/
inductive JValue where
  | jnull : JValue
  | jbool : Bool → JValue
  | jnum : Rat → JValue
  | jstr : String → JValue
  | jarr : List JValue → JValue
  | jobj : List (String × JValue) → JValue

/-- Key lookup in a decoded JSON object.  `encoding/json` lets the last
occurrence of a duplicated key win when filling a struct field, hence the
reversal; matching is by the exact field tag. -/
def jlookup (kvs : List (String × JValue)) (k : String) : Option JValue :=
  kvs.reverse.lookup k

/-- Go struct `IPerf3Summary` (main.go lines 18-25).  `Start`, `End`,
`Seconds`, `BitsPerSecond` and `Retransmits` are floating-point fields in
Go, modeled as `Rat`; `Bytes` is an `int`. -/
structure IPerf3Summary where
  Start : Rat
  End : Rat
  Seconds : Rat
  Bytes : Int
  BitsPerSecond : Rat
  Retransmits : Rat
deriving DecidableEq

/-- The anonymous `End` struct nested in `IPerf3Result` (main.go lines
29-32). -/
structure IPerf3End where
  SumSent : IPerf3Summary
  SumReceived : IPerf3Summary
deriving DecidableEq

/-- Go struct `IPerf3Result` (main.go lines 27-33). -/
structure IPerf3Result where
  Error : String
  End : IPerf3End
deriving DecidableEq

/-- Go zero value of `IPerf3Summary`. -/
def zeroSummary : IPerf3Summary := ⟨0, 0, 0, 0, 0, 0⟩

/-- Go zero value of the nested `End` struct. -/
def zeroEnd : IPerf3End := ⟨zeroSummary, zeroSummary⟩

/-- Go zero value of `IPerf3Result`. -/
def zeroResult : IPerf3Result := ⟨"", zeroEnd⟩

/-- `encoding/json` decoding of a JSON value into a Go `string` field:
`null` leaves the zero value, a string sets it, anything else is a type
error. -/
def decodeStr : JValue → Except String String
  | .jnull => .ok ""
  | .jstr s => .ok s
  | _ => .error "cannot unmarshal value into field of type string"

/-- `encoding/json` decoding into a floating-point field: `null` leaves the
zero value, a number sets it, anything else is a type error. -/
def decodeNum : JValue → Except String Rat
  | .jnull => .ok 0
  | .jnum q => .ok q
  | _ => .error "cannot unmarshal value into field of type float64"

/-- `encoding/json` decoding into an `int` field: `null` leaves the zero
value, an integral number sets it, a fractional number or any other value
is a type error. -/
def decodeIntF : JValue → Except String Int
  | .jnull => .ok 0
  | .jnum q => if q.den = 1 then .ok q.num else .error "cannot unmarshal fractional number into field of type int"
  | _ => .error "cannot unmarshal value into field of type int"

/-- Decoding of one struct field: a key absent from the object leaves the
Go zero value `z`; a present key must decode with `dec`. -/
def decField {α : Type} (kvs : List (String × JValue)) (k : String)
    (dec : JValue → Except String α) (z : α) : Except String α :=
  match jlookup kvs k with
  | none => .ok z
  | some v => dec v

/-- `encoding/json` decoding of a JSON value into `IPerf3Summary`:
the value must be an object (or `null`, which leaves the zero value);
fields absent from the object keep their zero values; unknown keys are
ignored. -/
def decodeSummary : JValue → Except String IPerf3Summary
  | .jnull => .ok zeroSummary
  | .jobj kvs => do
      let st ← decField kvs "start" decodeNum 0
      let en ← decField kvs "end" decodeNum 0
      let se ← decField kvs "seconds" decodeNum 0
      let bt ← decField kvs "bytes" decodeIntF 0
      let bps ← decField kvs "bits_per_second" decodeNum 0
      let rt ← decField kvs "retransmits" decodeNum 0
      .ok ⟨st, en, se, bt, bps, rt⟩
  | _ => .error "cannot unmarshal value into IPerf3Summary"

/-- `encoding/json` decoding into the nested `End` struct: `sum_sent` and
`sum_received` decode as summaries and default to the zero summary when
absent. -/
def decodeEnd : JValue → Except String IPerf3End
  | .jnull => .ok zeroEnd
  | .jobj kvs => do
      let ss ← decField kvs "sum_sent" decodeSummary zeroSummary
      let sr ← decField kvs "sum_received" decodeSummary zeroSummary
      .ok ⟨ss, sr⟩
  | _ => .error "cannot unmarshal value into End struct"

/-- `json.Unmarshal(stdout.Bytes(), result)` with `result : *IPerf3Result`
(main.go line 48): the top-level value must be an object (`null` leaves the
zero value); the `error` and `end` fields default to their zero values when
absent. -/
def decodeResult : JValue → Except String IPerf3Result
  | .jnull => .ok zeroResult
  | .jobj kvs => do
      let e ← decField kvs "error" decodeStr ""
      let en ← decField kvs "end" decodeEnd zeroEnd
      .ok ⟨e, en⟩
  | _ => .error "cannot unmarshal value into IPerf3Result"

/-- The classified failure returned by `ExecIPerf3`, one constructor per
`return nil, ...` site: the error of `cmd.Run` (line 42), the
`fmt.Errorf` on a non-zero exit code (line 46), the `json.Unmarshal`
error (line 50), and `errors.New(result.Error)` (line 53). -/
inductive MeasurementFailure where
  | launch : String → MeasurementFailure
  | exitStatus : Int → MeasurementFailure
  | parse : String → MeasurementFailure
  | toolReported : String → MeasurementFailure
deriving DecidableEq

/-- The observable outcome of one `iperf3` subprocess run: the error
returned by `cmd.Run` (if any), the exit code reported by
`cmd.ProcessState.ExitCode()`, and the captured stdout — `none` when the
bytes are not well-formed JSON, otherwise the parsed JSON value. -/
structure RunOutcome where
  runErr : Option String
  exitCode : Int
  stdout : Option JValue

/-- The `os/exec` contract: `cmd.Run` returns a nil error only if the
process started, completed and exited with status 0 (a non-zero exit
surfaces as an `*ExitError` from `Run` itself). -/
def RunOutcome.consistent (o : RunOutcome) : Prop :=
  o.runErr = none → o.exitCode = 0

/-- `ExecIPerf3` (main.go lines 35-56) as a function of the subprocess
outcome: a `cmd.Run` error returns first; then a non-zero exit code; then
a JSON decoding error; then a non-empty `Error` field of the decoded
report; otherwise the report is returned. -/
def ExecIPerf3 (o : RunOutcome) : Except MeasurementFailure IPerf3Result :=
  match o.runErr with
  | some e => .error (.launch e)
  | none =>
    if o.exitCode ≠ 0 then
      .error (.exitStatus o.exitCode)
    else
      match o.stdout with
      | none => .error (.parse "unexpected end of JSON input")
      | some v =>
        match decodeResult v with
        | .error m => .error (.parse m)
        | .ok r =>
          if r.Error ≠ "" then .error (.toolReported r.Error)
          else .ok r

/-- The metric store at the single server label the loop ever uses: one
optional value per `GaugeVec` of main.go lines 70-94.  `none` means the
label is absent from the vector (fresh, or after `Reset()`), so the metric
is omitted from exposition. -/
structure MetricState where
  errorCount : Option Rat
  sentBitPerSec : Option Rat
  sentRetransmits : Option Rat
  receivedBitPerSec : Option Rat
  receivedRetransmits : Option Rat
deriving DecidableEq

/-- All vectors start without any label: nothing has been set when the
process starts. -/
def initMetricState : MetricState := ⟨none, none, none, none, none⟩

/-- Current numeric value of the error counter, 0 when the label is
absent (`GaugeVec.WithLabelValues` creates a label at 0). -/
def errVal (s : MetricState) : Rat := s.errorCount.getD 0

/-- The fixed backoff `time.Sleep(time.Second * 10)` of main.go line 105,
in nanoseconds (`time.Duration` units). -/
def backoffNs : Int := 10 * 1000000000

/-- One iteration of the sampler loop body (main.go lines 96-113) given
the result of `ExecIPerf3`: on error, `errorCount` for the server gets
`Add(1)` and the four gauge vectors are `Reset()`, and the loop sleeps the
10 s backoff; on success the four gauges are set from the report and the
loop sleeps the configured interval.  Returns the next store and the sleep
duration in nanoseconds. -/
def samplerStep (execInterval : Int) (s : MetricState)
    (res : Except MeasurementFailure IPerf3Result) : MetricState × Int :=
  match res with
  | .error _ =>
      ({ s with
          errorCount := some (s.errorCount.getD 0 + 1),
          sentBitPerSec := none,
          sentRetransmits := none,
          receivedBitPerSec := none,
          receivedRetransmits := none },
        backoffNs)
  | .ok result =>
      ({ s with
          sentBitPerSec := some result.End.SumSent.BitsPerSecond,
          sentRetransmits := some result.End.SumSent.Retransmits,
          receivedBitPerSec := some result.End.SumReceived.BitsPerSecond,
          receivedRetransmits := some result.End.SumReceived.Retransmits },
        execInterval)

/-- The sampler loop run over a finite prefix of measurement outcomes:
the store after processing each outcome in order with `samplerStep`. -/
def samplerRun (execInterval : Int) (s : MetricState)
    (t : List (Except MeasurementFailure IPerf3Result)) : MetricState :=
  t.foldl (fun s r => (samplerStep execInterval s r).1) s

/-- Whether one outcome of `ExecIPerf3` took the error branch of the
loop. -/
def isFailure : Except MeasurementFailure IPerf3Result → Bool
  | .error _ => true
  | .ok _ => false

/-- Number of failed attempts in a trace of outcomes. -/
def failCount (t : List (Except MeasurementFailure IPerf3Result)) : Nat :=
  t.countP isFailure

/-- The five metric vectors the program creates (main.go lines 70-94). -/
inductive MetricName where
  | errorCount : MetricName
  | sentBitPerSec : MetricName
  | sentRetransmits : MetricName
  | receivedBitPerSec : MetricName
  | receivedRetransmits : MetricName
deriving DecidableEq

/-- The vectors passed to `prometheus.MustRegister` (main.go line 115):
only the four throughput/retransmit gauges; `errorCount` is not among
them. -/
def registeredMetrics : List MetricName :=
  [MetricName.sentBitPerSec, MetricName.sentRetransmits,
   MetricName.receivedBitPerSec, MetricName.receivedRetransmits]

/-- Read one vector of the store by name. -/
def MetricState.get (s : MetricState) : MetricName → Option Rat
  | .errorCount => s.errorCount
  | .sentBitPerSec => s.sentBitPerSec
  | .sentRetransmits => s.sentRetransmits
  | .receivedBitPerSec => s.receivedBitPerSec
  | .receivedRetransmits => s.receivedRetransmits

/-- One `/metrics` scrape: the registered vectors that currently carry a
value for the server label, with that value.  Unregistered vectors are
never serialized, vectors whose label set is empty are omitted. -/
def exposition (s : MetricState) : List (MetricName × Rat) :=
  registeredMetrics.filterMap (fun n => (s.get n).map (fun v => (n, v)))

/-- Termination behavior of `main` after flag parsing. -/
inductive BootResult where
  | fatalInvalidInterval : BootResult
  | fatalListen : String → BootResult
  | serving : BootResult
deriving DecidableEq

/-- The bootstrap path of `main` (main.go lines 65-68 and 117-120) as a
function of the outcome of the two external calls: `log.Fatal` when
`time.ParseDuration(*interval)` fails, `log.Fatal` when
`http.ListenAndServe` returns an error, otherwise the process keeps
serving (and the sampler goroutine keeps looping). -/
def mainBoot (parsedInterval : Option Int) (listenErr : Option String) : BootResult :=
  match parsedInterval with
  | none => BootResult.fatalInvalidInterval
  | some _ =>
    match listenErr with
    | some m => BootResult.fatalListen m
    | none => BootResult.serving

/-- The all-or-nothing shape of the four throughput/retransmit gauges:
either all four are absent, or all four are present and are the four
fields of one report. -/
def gaugesAligned (s : MetricState) : Prop :=
  (s.sentBitPerSec = none ∧ s.sentRetransmits = none ∧
    s.receivedBitPerSec = none ∧ s.receivedRetransmits = none) ∨
  (∃ r : IPerf3Result,
    s.sentBitPerSec = some r.End.SumSent.BitsPerSecond ∧
    s.sentRetransmits = some r.End.SumSent.Retransmits ∧
    s.receivedBitPerSec = some r.End.SumReceived.BitsPerSecond ∧
    s.receivedRetransmits = some r.End.SumReceived.Retransmits)

/-- The stdout of Scenario D of the spec:
`(jobj of error and end)` for the bytes
`\x7b"error":"unable to connect to server","end":\x7b\x7d\x7d`. -/
def scenarioDOutput : JValue :=
  .jobj [("error", .jstr "unable to connect to server"), ("end", .jobj [])]

theorem samplerRun_nil (i : Int) (s : MetricState) : samplerRun i s [] = s := rfl

theorem samplerRun_cons (i : Int) (s : MetricState)
    (o : Except MeasurementFailure IPerf3Result)
    (t : List (Except MeasurementFailure IPerf3Result)) :
    samplerRun i s (o :: t) = samplerRun i (samplerStep i s o).1 t := rfl

theorem samplerRun_append (i : Int) (s : MetricState)
    (t u : List (Except MeasurementFailure IPerf3Result)) :
    samplerRun i s (t ++ u) = samplerRun i (samplerRun i s t) u := by
  simp [samplerRun, List.foldl_append]

/-- C2: for every call of the measurement operation, failures are
classified in order — (a) `cmd.Run` error gives a launch failure, (b) a
non-zero exit code gives an exit-status failure carrying the code, (c) an
undecodable stdout gives a parse failure, (d) a decoded report with a
non-empty `Error` field gives a tool-reported failure carrying that
message — and each returns an `Except.error`, so no report is returned. -/
theorem execIPerf3_failure_classification :
    (∀ (o : RunOutcome) (e : String), o.runErr = some e →
      ExecIPerf3 o = Except.error (MeasurementFailure.launch e)) ∧
    (∀ o : RunOutcome, o.runErr = none → o.exitCode ≠ 0 →
      ExecIPerf3 o = Except.error (MeasurementFailure.exitStatus o.exitCode)) ∧
    (∀ o : RunOutcome, o.runErr = none → o.exitCode = 0 → o.stdout = none →
      ∃ m, ExecIPerf3 o = Except.error (MeasurementFailure.parse m)) ∧
    (∀ (o : RunOutcome) (v : JValue) (m : String), o.runErr = none → o.exitCode = 0 →
      o.stdout = some v → decodeResult v = Except.error m →
      ExecIPerf3 o = Except.error (MeasurementFailure.parse m)) ∧
    (∀ (o : RunOutcome) (v : JValue) (r : IPerf3Result), o.runErr = none → o.exitCode = 0 →
      o.stdout = some v → decodeResult v = Except.ok r → r.Error ≠ "" →
      ExecIPerf3 o = Except.error (MeasurementFailure.toolReported r.Error)) := by
  refine ⟨?_, ?_, ?_, ?_, ?_⟩
  · intro o e h
    simp [ExecIPerf3, h]
  · intro o h1 h2
    simp [ExecIPerf3, h1, h2]
  · intro o h1 h2 h3
    simp [ExecIPerf3, h1, h2, h3]
  · intro o v m h1 h2 h3 h4
    simp [ExecIPerf3, h1, h2, h3, h4]
  · intro o v r h1 h2 h3 h4 h5
    simp [ExecIPerf3, h1, h2, h3, h4, h5]

theorem execIPerf3_failure_classification_witness :
    ExecIPerf3 ⟨some "fork failed", 0, none⟩ =
      Except.error (MeasurementFailure.launch "fork failed") ∧
    ExecIPerf3 ⟨none, 1, none⟩ = Except.error (MeasurementFailure.exitStatus 1) ∧
    (∃ m, ExecIPerf3 ⟨none, 0, none⟩ = Except.error (MeasurementFailure.parse m)) ∧
    ExecIPerf3 ⟨none, 0, some (JValue.jarr [])⟩ =
      Except.error (MeasurementFailure.parse "cannot unmarshal value into IPerf3Result") ∧
    ExecIPerf3 ⟨none, 0, some scenarioDOutput⟩ =
      Except.error (MeasurementFailure.toolReported "unable to connect to server") :=
  ⟨execIPerf3_failure_classification.1 ⟨some "fork failed", 0, none⟩ "fork failed" rfl,
   execIPerf3_failure_classification.2.1 ⟨none, 1, none⟩ rfl (by decide),
   execIPerf3_failure_classification.2.2.1 ⟨none, 0, none⟩ rfl rfl rfl,
   execIPerf3_failure_classification.2.2.2.1 ⟨none, 0, some (JValue.jarr [])⟩
     (JValue.jarr []) "cannot unmarshal value into IPerf3Result" rfl rfl rfl rfl,
   execIPerf3_failure_classification.2.2.2.2 ⟨none, 0, some scenarioDOutput⟩
     scenarioDOutput ⟨"unable to connect to server", zeroEnd⟩ rfl rfl rfl rfl (by decide)⟩

/-- C9: under the `os/exec` contract (`cmd.Run` returns a nil error only
when the exit status is 0), the `exitCode != 0` branch of `ExecIPerf3` is
unreachable: the function never returns an exit-status failure, because a
non-zero exit already surfaces as an error from `cmd.Run` itself. -/
theorem exit_status_branch_unreachable :
    ∀ o : RunOutcome, o.consistent →
      ∀ c : Int, ExecIPerf3 o ≠ Except.error (MeasurementFailure.exitStatus c) := by
  intro o hc c
  cases h : o.runErr with
  | some e => simp [ExecIPerf3, h]
  | none =>
    have h0 : o.exitCode = 0 := hc h
    cases hs : o.stdout with
    | none => simp [ExecIPerf3, h, h0, hs]
    | some v =>
      cases hd : decodeResult v with
      | error m => simp [ExecIPerf3, h, h0, hs, hd]
      | ok r =>
        by_cases he : r.Error = "" <;> simp [ExecIPerf3, h, h0, hs, hd, he]

theorem exit_status_branch_unreachable_witness :
    ExecIPerf3 ⟨none, 0, some (JValue.jobj [])⟩ ≠
      Except.error (MeasurementFailure.exitStatus 1) :=
  exit_status_branch_unreachable ⟨none, 0, some (JValue.jobj [])⟩ (fun _ => rfl) 1

/-- C7: on a run where the tool exits 0 printing
`scenarioDOutput` (error field "unable to connect to server", empty end
section), `ExecIPerf3` fails with exactly that message, and the sampler
step for that outcome clears the four gauges and adds one to the error
counter. -/
theorem scenarioD_tool_reported_failure :
    ExecIPerf3 ⟨none, 0, some scenarioDOutput⟩ =
      Except.error (MeasurementFailure.toolReported "unable to connect to server") ∧
    ∀ (i : Int) (s : MetricState),
      (samplerStep i s (ExecIPerf3 ⟨none, 0, some scenarioDOutput⟩)).1.sentBitPerSec = none ∧
      (samplerStep i s (ExecIPerf3 ⟨none, 0, some scenarioDOutput⟩)).1.sentRetransmits = none ∧
      (samplerStep i s (ExecIPerf3 ⟨none, 0, some scenarioDOutput⟩)).1.receivedBitPerSec = none ∧
      (samplerStep i s (ExecIPerf3 ⟨none, 0, some scenarioDOutput⟩)).1.receivedRetransmits = none ∧
      (samplerStep i s (ExecIPerf3 ⟨none, 0, some scenarioDOutput⟩)).1.errorCount =
        some (errVal s + 1) := by
  have h1 : ExecIPerf3 ⟨none, 0, some scenarioDOutput⟩ =
      Except.error (MeasurementFailure.toolReported "unable to connect to server") := by rfl
  refine ⟨h1, ?_⟩
  intro i s
  rw [h1]
  simp [samplerStep, errVal]

theorem errorCount_samplerRun (i : Int) :
    ∀ (t : List (Except MeasurementFailure IPerf3Result)) (s : MetricState),
      (samplerRun i s t).errorCount =
        if failCount t = 0 then s.errorCount
        else some (errVal s + (failCount t : Rat)) := by
  intro t
  induction t with
  | nil => intro s; simp [samplerRun_nil, failCount]
  | cons o t ih =>
    intro s
    rw [samplerRun_cons, ih]
    cases o with
    | ok r =>
      simp [samplerStep, failCount, List.countP_cons, isFailure, errVal]
    | error e =>
      have hfc : failCount (Except.error e :: t) = failCount t + 1 := by
        simp [failCount, List.countP_cons, isFailure]
      rw [hfc]
      rw [if_neg (Nat.succ_ne_zero _)]
      simp only [samplerStep, errVal, Option.getD_some]
      by_cases h0 : failCount t = 0
      · rw [if_pos h0, h0]
        norm_num
      · rw [if_neg h0]
        congr 1
        push_cast
        ring

/-- C3: a successful measurement sets the four gauges to exactly the four
numeric fields of the decoded report, and a second success fully
overwrites a first one — no averaging or accumulation. -/
theorem success_sets_and_overwrites_gauges :
    (∀ (i : Int) (s : MetricState) (r : IPerf3Result),
      (samplerStep i s (Except.ok r)).1.sentBitPerSec = some r.End.SumSent.BitsPerSecond ∧
      (samplerStep i s (Except.ok r)).1.sentRetransmits = some r.End.SumSent.Retransmits ∧
      (samplerStep i s (Except.ok r)).1.receivedBitPerSec = some r.End.SumReceived.BitsPerSecond ∧
      (samplerStep i s (Except.ok r)).1.receivedRetransmits = some r.End.SumReceived.Retransmits) ∧
    (∀ (i : Int) (s : MetricState) (r1 r2 : IPerf3Result),
      (samplerRun i s [Except.ok r1, Except.ok r2]).sentBitPerSec =
        some r2.End.SumSent.BitsPerSecond ∧
      (samplerRun i s [Except.ok r1, Except.ok r2]).sentRetransmits =
        some r2.End.SumSent.Retransmits ∧
      (samplerRun i s [Except.ok r1, Except.ok r2]).receivedBitPerSec =
        some r2.End.SumReceived.BitsPerSecond ∧
      (samplerRun i s [Except.ok r1, Except.ok r2]).receivedRetransmits =
        some r2.End.SumReceived.Retransmits) :=
  ⟨fun i s r => by simp [samplerStep],
   fun i s r1 r2 => by simp [samplerRun, samplerStep]⟩

/-- C4: starting from the empty store, after any trace the error counter
label holds exactly the number of failures so far (absent while that
number is 0); no step ever decreases it; and immediately after a failure
the four gauges are absent and the counter equals the failure count
including that failure. -/
theorem failure_tally_and_gauge_reset :
    (∀ (i : Int) (t : List (Except MeasurementFailure IPerf3Result)),
      (samplerRun i initMetricState t).errorCount =
        if failCount t = 0 then none else some ((failCount t : Rat))) ∧
    (∀ (i : Int) (s : MetricState) (o : Except MeasurementFailure IPerf3Result),
      errVal s ≤ errVal ((samplerStep i s o).1)) ∧
    (∀ (i : Int) (t : List (Except MeasurementFailure IPerf3Result))
        (o : Except MeasurementFailure IPerf3Result),
      errVal (samplerRun i initMetricState t) ≤
        errVal (samplerRun i initMetricState (t ++ [o]))) ∧
    (∀ (i : Int) (t : List (Except MeasurementFailure IPerf3Result)) (e : MeasurementFailure),
      (samplerRun i initMetricState (t ++ [Except.error e])).sentBitPerSec = none ∧
      (samplerRun i initMetricState (t ++ [Except.error e])).sentRetransmits = none ∧
      (samplerRun i initMetricState (t ++ [Except.error e])).receivedBitPerSec = none ∧
      (samplerRun i initMetricState (t ++ [Except.error e])).receivedRetransmits = none ∧
      (samplerRun i initMetricState (t ++ [Except.error e])).errorCount =
        some ((failCount t : Rat) + 1)) := by
  have hcount : ∀ (i : Int) (t : List (Except MeasurementFailure IPerf3Result)),
      (samplerRun i initMetricState t).errorCount =
        if failCount t = 0 then none else some ((failCount t : Rat)) := by
    intro i t
    rw [errorCount_samplerRun]
    simp [initMetricState, errVal]
  have hval : ∀ (i : Int) (t : List (Except MeasurementFailure IPerf3Result)),
      errVal (samplerRun i initMetricState t) = (failCount t : Rat) := by
    intro i t
    unfold errVal
    rw [hcount i t]
    split_ifs with hfc
    · simp [hfc]
    · simp
  have hstep : ∀ (i : Int) (s : MetricState) (o : Except MeasurementFailure IPerf3Result),
      errVal s ≤ errVal ((samplerStep i s o).1) := by
    intro i s o
    cases o with
    | ok r => simp [samplerStep, errVal]
    | error e =>
      simp only [samplerStep, errVal, Option.getD_some]
      linarith
  refine ⟨hcount, hstep, ?_, ?_⟩
  · intro i t o
    rw [samplerRun_append]
    exact hstep i (samplerRun i initMetricState t) o
  · intro i t e
    rw [samplerRun_append]
    refine ⟨by simp [samplerRun, samplerStep], by simp [samplerRun, samplerStep],
      by simp [samplerRun, samplerStep], by simp [samplerRun, samplerStep], ?_⟩
    have : errVal (samplerRun i initMetricState t) = (failCount t : Rat) := hval i t
    simp [samplerRun, samplerStep, errVal] at this ⊢
    rw [this]

theorem step_gaugesAligned (i : Int) (s : MetricState)
    (o : Except MeasurementFailure IPerf3Result) :
    gaugesAligned ((samplerStep i s o).1) := by
  cases o with
  | error e => left; simp [samplerStep]
  | ok r =>
    right
    exact ⟨r, by simp [samplerStep], by simp [samplerStep],
      by simp [samplerStep], by simp [samplerStep]⟩

theorem run_gaugesAligned (i : Int) :
    ∀ (t : List (Except MeasurementFailure IPerf3Result)) (s : MetricState),
      gaugesAligned s → gaugesAligned (samplerRun i s t) := by
  intro t
  induction t with
  | nil => intro s h; exact h
  | cons o t ih =>
    intro s _
    rw [samplerRun_cons]
    exact ih _ (step_gaugesAligned i s o)

/-- C5: after every completed sampler cycle, either all four
throughput/retransmit gauges are present and carry the four fields of one
report, or all four are absent; mixed states never occur. -/
theorem gauges_all_or_nothing :
    ∀ (i : Int) (t : List (Except MeasurementFailure IPerf3Result)),
      gaugesAligned (samplerRun i initMetricState t) := by
  intro i t
  exact run_gaugesAligned i t initMetricState (Or.inl (by simp [initMetricState]))

/-- C6: the sleep after a failed attempt is always the fixed 10 s backoff,
the sleep after a success is always the configured interval, and whenever
the configured interval exceeds the backoff the post-failure delay is
strictly shorter than the post-success delay. -/
theorem failure_backoff_fixed_and_shorter :
    (∀ (i : Int) (s : MetricState) (e : MeasurementFailure),
      (samplerStep i s (Except.error e)).2 = backoffNs) ∧
    (∀ (i : Int) (s : MetricState) (r : IPerf3Result),
      (samplerStep i s (Except.ok r)).2 = i) ∧
    (∀ i : Int, backoffNs < i →
      ∀ (s : MetricState) (e : MeasurementFailure) (u : MetricState) (r : IPerf3Result),
        (samplerStep i s (Except.error e)).2 < (samplerStep i u (Except.ok r)).2) := by
  refine ⟨fun i s e => rfl, fun i s r => rfl, ?_⟩
  intro i hi s e u r
  simpa [samplerStep] using hi

theorem failure_backoff_fixed_and_shorter_witness :
    (samplerStep 300000000000 initMetricState
        (Except.error (MeasurementFailure.launch "connect failed"))).2 <
      (samplerStep 300000000000 initMetricState (Except.ok zeroResult)).2 :=
  failure_backoff_fixed_and_shorter.2.2 300000000000 (by decide) initMetricState
    (MeasurementFailure.launch "connect failed") initMetricState zeroResult

/-- C8: the process ends up serving (neither fatal exit) exactly when the
interval parses and the listener starts, and the sampler loop absorbs
every outcome — processing a longer trace just continues from the state
reached, with no outcome able to stop it. -/
theorem fatal_only_at_bootstrap :
    (∀ (p : Option Int) (l : Option String),
      mainBoot p l = BootResult.serving ↔ p.isSome ∧ l = none) ∧
    (∀ (i : Int) (s : MetricState)
        (t u : List (Except MeasurementFailure IPerf3Result)),
      samplerRun i s (t ++ u) = samplerRun i (samplerRun i s t) u) := by
  constructor
  · intro p l
    cases p <;> cases l <;> simp [mainBoot]
  · exact samplerRun_append

/-- C1, evaluated at the code: after any failure step the scrape output is
empty — so the four gauges are indeed absent, but the error counter is
absent from the exposition as well, because `errorCount` is not among the
vectors passed to `prometheus.MustRegister` (main.go line 115), even
though its stored value has just increased by one. -/
theorem errorCount_not_registered_eval :
    MetricName.errorCount ∉ registeredMetrics ∧
    (∀ (i : Int) (s : MetricState) (e : MeasurementFailure),
      exposition ((samplerStep i s (Except.error e)).1) = [] ∧
      ((samplerStep i s (Except.error e)).1).errorCount = some (errVal s + 1)) := by
  constructor
  · decide
  · intro i s e
    constructor
    · simp [exposition, registeredMetrics, samplerStep, MetricState.get]
    · simp [samplerStep, errVal]

/-- C10: a tool output that is a JSON object with an absent or empty
`error` field and with the `end` section (or its `sum_sent` and
`sum_received` summaries) missing decodes successfully with every numeric
field at its zero value, so `ExecIPerf3` returns the zero report instead
of a parse failure and the success path sets all four gauges to 0. -/
theorem missing_json_fields_default_zero :
    ∀ kvs : List (String × JValue),
      (jlookup kvs "error" = none ∨ jlookup kvs "error" = some (JValue.jstr "")) →
      (jlookup kvs "end" = none ∨
        ∃ ekvs : List (String × JValue),
          jlookup kvs "end" = some (JValue.jobj ekvs) ∧
          jlookup ekvs "sum_sent" = none ∧ jlookup ekvs "sum_received" = none) →
      ExecIPerf3 ⟨none, 0, some (JValue.jobj kvs)⟩ = Except.ok zeroResult ∧
      ∀ (i : Int) (s : MetricState),
        (samplerStep i s (Except.ok zeroResult)).1.sentBitPerSec = some 0 ∧
        (samplerStep i s (Except.ok zeroResult)).1.sentRetransmits = some 0 ∧
        (samplerStep i s (Except.ok zeroResult)).1.receivedBitPerSec = some 0 ∧
        (samplerStep i s (Except.ok zeroResult)).1.receivedRetransmits = some 0 := by
  intro kvs herr hend
  have h1 : decField kvs "error" decodeStr "" = Except.ok "" := by
    rcases herr with h | h <;> simp [decField, h, decodeStr]
  have h2 : decField kvs "end" decodeEnd zeroEnd = Except.ok zeroEnd := by
    rcases hend with h | ⟨ekvs, h, hs, hr⟩
    · simp [decField, h]
    · simp only [decField, h, decodeEnd, hs, hr]
      rfl
  have hdec : decodeResult (JValue.jobj kvs) = Except.ok zeroResult := by
    simp only [decodeResult, h1, h2]
    rfl
  constructor
  · simp [ExecIPerf3, hdec, zeroResult]
  · intro i s
    simp [samplerStep, zeroResult, zeroEnd, zeroSummary]

theorem missing_json_fields_default_zero_witness :
    ExecIPerf3 ⟨none, 0, some (JValue.jobj [])⟩ = Except.ok zeroResult :=
  (missing_json_fields_default_zero [] (Or.inl rfl) (Or.inl rfl)).1
